import Mathlib

/-!
Verification model of the hydrolox-log crate (src/lib.rs), a process-wide
logging sink.  The Rust code is shallowly embedded: machine IO (clock
formatting, stdout writes, file writes, file creation, executable-path
lookup) is represented by explicit success/failure oracles and by a list of
observable effects, and the panic behaviour (.expect calls) is represented by
an Outcome type with a fatal constructor.  All definitions follow the source;
names are kept where Lean allows.
-/

namespace HydroloxLog

/-- Severity levels of the log facade crate, from most severe (error) to
least severe (trace).  toNat mirrors the numeric values of the Rust enum,
where Error = 1 is the smallest. -/
inductive Level
  | error
  | warn
  | info
  | debug
  | trace
deriving DecidableEq, Repr

def Level.toNat : Level → Nat
  | .error => 1
  | .warn => 2
  | .info => 3
  | .debug => 4
  | .trace => 5

/-- Display rendering of a level in the log crate: upper-case name. -/
def Level.toUpperName : Level → String
  | .error => "ERROR"
  | .warn => "WARN"
  | .info => "INFO"
  | .debug => "DEBUG"
  | .trace => "TRACE"

/-- LevelFilter of the log facade crate, the type of the global maximum
level; Off = 0 rejects everything. -/
inductive LevelFilter
  | off
  | error
  | warn
  | info
  | debug
  | trace
deriving DecidableEq, Repr

def LevelFilter.toNat : LevelFilter → Nat
  | .off => 0
  | .error => 1
  | .warn => 2
  | .info => 3
  | .debug => 4
  | .trace => 5

/-- A UTC calendar datetime sample, as delivered by the external clock
(OffsetDateTime::now_utc).  subsec is the four-digit sub-second value
(ten-thousandths of a second) used by the entry format. -/
structure DateTime where
  year : Nat
  month : Nat
  day : Nat
  hour : Nat
  minute : Nat
  second : Nat
  subsec : Nat
deriving DecidableEq, Repr

/-- Field ranges of a real clock sample (year limited to four digits as in
the time crate default range). -/
def DateTime.valid (t : DateTime) : Prop :=
  t.year ≤ 9999 ∧ t.month ≤ 12 ∧ t.day ≤ 31 ∧ t.hour < 24 ∧
    t.minute < 60 ∧ t.second < 60 ∧ t.subsec < 10000

instance (t : DateTime) : Decidable t.valid := by
  unfold DateTime.valid; infer_instance

/-- The second-precision part of a datetime, the information content of the
filename format. -/
structure SecondStamp where
  y : Nat
  mo : Nat
  d : Nat
  h : Nat
  mi : Nat
  s : Nat
deriving DecidableEq, Repr

def DateTime.toSecondStamp (t : DateTime) : SecondStamp :=
  ⟨t.year, t.month, t.day, t.hour, t.minute, t.second⟩

/-- Decimal digit character, as produced by the padded numeric fields of the
time crate format engine. -/
def digitChar : Nat → Char
  | 0 => '0'
  | 1 => '1'
  | 2 => '2'
  | 3 => '3'
  | 4 => '4'
  | 5 => '5'
  | 6 => '6'
  | 7 => '7'
  | 8 => '8'
  | 9 => '9'
  | _ => '?'

def digitVal (c : Char) : Nat := c.toNat - 48

/-- Zero-padded two-digit decimal rendering. -/
def pad2 (n : Nat) : List Char :=
  [digitChar (n / 10 % 10), digitChar (n % 10)]

/-- Zero-padded four-digit decimal rendering. -/
def pad4 (n : Nat) : List Char :=
  [digitChar (n / 1000 % 10), digitChar (n / 100 % 10),
   digitChar (n / 10 % 10), digitChar (n % 10)]

/-- Rendering of FILENAME_FORMAT =
"[year]-[month]-[day]T[hour repr:24]_[minute]_[second]" by the external
format engine on a given clock sample. -/
def renderFilenameChars (t : DateTime) : List Char :=
  pad4 t.year ++ '-' :: pad2 t.month ++ '-' :: pad2 t.day ++
    'T' :: pad2 t.hour ++ '_' :: pad2 t.minute ++ '_' :: pad2 t.second

/-- Rendering of ENTRY_FORMAT =
"[year]-[month]-[day]T[hour]:[minute]:[second].[subsecond digits:4]" by the
external format engine on a given clock sample. -/
def renderEntryChars (t : DateTime) : List Char :=
  pad4 t.year ++ '-' :: pad2 t.month ++ '-' :: pad2 t.day ++
    'T' :: pad2 t.hour ++ ':' :: pad2 t.minute ++ ':' :: pad2 t.second ++
    '.' :: pad4 t.subsec

/-- The scan-and-replace transform applied by now_formatted to the rendered
text: every colon byte becomes an underscore. -/
def replaceColons (l : List Char) : List Char :=
  l.map fun c => if c = ':' then '_' else c

def hasColon (l : List Char) : Bool :=
  l.any fun c => c == ':'

/-- now_formatted of the source: takes the result of
OffsetDateTime::now_utc().format(format) (an external, fallible call) and
maps the colon replacement over a successful rendering. -/
def now_formatted (raw : Except Unit (List Char)) : Except Unit (List Char) :=
  raw.map replaceColons

/-- now_filename of the source, given that the format engine succeeded and
produced the FILENAME_FORMAT rendering of the clock sample t. -/
def now_filename (t : DateTime) : List Char :=
  replaceColons (renderFilenameChars t)

/-- now_entry of the source, given that the format engine succeeded and
produced the ENTRY_FORMAT rendering of the clock sample t. -/
def now_entry (t : DateTime) : List Char :=
  replaceColons (renderEntryChars t)

def val2 (a b : Char) : Nat := digitVal a * 10 + digitVal b

def val4 (a b c d : Char) : Nat :=
  digitVal a * 1000 + digitVal b * 100 + digitVal c * 10 + digitVal d

/-- Parser for the filename timestamp shape, used to show the rendering is
injective on second-precision stamps. -/
def decodeFilename : List Char → Option SecondStamp
  | [y3, y2, y1, y0, '-', m1, m0, '-', d1, d0, 'T',
     h1, h0, '_', mi1, mi0, '_', s1, s0] =>
    some ⟨val4 y3 y2 y1 y0, val2 m1 m0, val2 d1 d0,
          val2 h1 h0, val2 mi1 mi0, val2 s1 s0⟩
  | _ => none

/-- A log record as handed over by the log facade. -/
structure LogRecord where
  level : Level
  target : String
  message : String
deriving DecidableEq, Repr

/-- The BufWriter over the created file: bytes still buffered in memory and
bytes already flushed to the file on disk. -/
structure FileSink where
  buffer : String
  contents : String
deriving DecidableEq, Repr

/-- The Logger struct of the source: a mutex-guarded optional buffered file
writer. -/
structure Logger where
  logfile : Option FileSink
deriving DecidableEq, Repr

/-- Observable side effects of the logger operations. -/
inductive Effect
  | formatTime
  | consoleWrite (s : String)
  | lockAcquire
  | fileWrite (s : String)
  | fileFlush
  | exePathQuery
  | createFile (path : String)
deriving DecidableEq, Repr

/-- Result of a run-time logger operation: normal return, or a panic raised
by one of the .expect calls. -/
inductive Outcome (α : Type)
  | ok (a : α)
  | fatal (msg : String)
deriving DecidableEq, Repr

def Outcome.isFatal : Outcome α → Bool
  | .ok _ => false
  | .fatal _ => true

/-- Logger::enabled: level at most the global max level in the numeric order
of the log crate (smaller = more severe). -/
def enabled (lvl : Level) (maxLv : LevelFilter) : Bool :=
  lvl.toNat ≤ maxLv.toNat

def replaceColonsStr (s : String) : String :=
  (replaceColons s.toList).asString

/-- String-level view of now_formatted, as used inside Logger::log on the
external ENTRY_FORMAT rendering result. -/
def now_formattedStr (raw : Except Unit String) : Except Unit String :=
  raw.map replaceColonsStr

/-- The format! template of Logger::log. -/
def renderLine (ts : String) (target : String) (lvl : Level)
    (msg : String) : String :=
  "[ " ++ ts ++ " " ++ target ++ " " ++ lvl.toUpperName ++ " ]: " ++
    msg ++ "\n"

/-- Logger::log.  fmtRes is the result of the external
OffsetDateTime::now_utc().format(ENTRY_FORMAT) call; stdoutOk and fileOk
tell whether the respective write_all calls succeed.  Returns the new logger
state together with the effect trace, or the panic raised by an .expect. -/
def Logger.log (st : Logger) (maxLv : LevelFilter) (r : LogRecord)
    (fmtRes : Except Unit String) (stdoutOk fileOk : Bool) :
    Outcome (Logger × List Effect) :=
  if enabled r.level maxLv then
    match now_formattedStr fmtRes with
    | .error _ => .fatal "Failed to format current time"
    | .ok ts =>
      let output := renderLine ts r.target r.level r.message
      if stdoutOk then
        match st.logfile with
        | none =>
          .ok (st, [.formatTime, .consoleWrite output, .lockAcquire])
        | some f =>
          if fileOk then
            .ok ({ logfile := some { buffer := f.buffer ++ output,
                                     contents := f.contents } },
                 [.formatTime, .consoleWrite output, .lockAcquire,
                  .fileWrite output])
          else .fatal "Failed to log to file"
      else .fatal "Failed to log to stdout"
  else .ok (st, [])

/-- Logger::flush.  BufWriter::flush writes the buffered bytes to the file
(this underlying write succeeds iff flushOk) and then delegates to
File::flush, which always succeeds; with an empty buffer nothing is written
and the call cannot fail. -/
def Logger.flush (st : Logger) (flushOk : Bool) :
    Outcome (Logger × List Effect) :=
  match st.logfile with
  | none => .ok (st, [.lockAcquire])
  | some f =>
    if f.buffer = "" then
      .ok (st, [.lockAcquire, .fileFlush])
    else if flushOk then
      .ok ({ logfile := some { buffer := "",
                               contents := f.contents ++ f.buffer } },
           [.lockAcquire, .fileFlush])
    else .fatal "Failed to flush logfile"

def isConsoleWrite : Effect → Bool
  | .consoleWrite _ => true
  | _ => false

def emitsConsole (o : Outcome (Logger × List Effect)) : Bool :=
  match o with
  | .ok (_, effs) => effs.any isConsoleWrite
  | .fatal _ => false

def lockCount : List Effect → Nat
  | [] => 0
  | .lockAcquire :: rest => lockCount rest + 1
  | _ :: rest => lockCount rest

/-- LoggerInitError of the source; io and log-crate error payloads are
carried as diagnostic strings. -/
inductive LoggerInitError
  | exePathGetErr (e : String)
  | nonUTF8Path
  | timeFormatErr
  | createFileErr (e : String)
  | setLoggerErr
deriving DecidableEq, Repr

/-- The process environment seen by Logger::new: the result of
std::env::current_exe, the directory left after popping the executable file
name, whether that path is valid UTF-8, whether the FILENAME_FORMAT
rendering succeeds, the clock sample, and the result of File::create. -/
structure InitEnv where
  exePathRes : Except String Unit
  exeDir : String
  pathIsUTF8 : Bool
  fmtOk : Bool
  now : DateTime
  createRes : Except String Unit
deriving Repr

/-- Logger::new, returning the constructed logger together with the
filesystem effects performed, or the first initialization error hit.  With
use_logfile false no environment access happens at all. -/
def Logger.new (use_logfile : Bool) (env : InitEnv) :
    Except LoggerInitError (Logger × List Effect) :=
  if use_logfile then
    match env.exePathRes with
    | .error e => .error (.exePathGetErr e)
    | .ok _ =>
      if env.pathIsUTF8 then
        if env.fmtOk then
          match env.createRes with
          | .error e => .error (.createFileErr e)
          | .ok _ =>
            .ok ({ logfile := some { buffer := "", contents := "" } },
                 [.exePathQuery,
                  .createFile (env.exeDir ++ "/log_" ++
                    (now_filename env.now).asString ++ ".txt")])
        else .error .timeFormatErr
      else .error .nonUTF8Path
  else .ok ({ logfile := none }, [])

/-- The process-global registration state: the LOGGER OnceLock together with
the log-crate registration (both set by the same successful init), and the
global max level (log::max_level, initially Off). -/
structure GlobalState where
  logger : Option Logger
  maxLevel : LevelFilter
deriving Repr

/-- Result of one init call: the returned value (Some guard iff use_logfile,
modelled as Option Unit), the new global state, and the effect trace. -/
structure InitOut where
  result : Except LoggerInitError (Option Unit)
  state : GlobalState
  effects : List Effect
deriving Repr

/-- init of the source.  Logger::new runs first (with its effects); its
error propagates.  LOGGER.set silently does nothing when a logger is already
registered; log::set_logger then fails with SetLoggerError, so
log::set_max_level is not reached and the old state survives. -/
def init (g : GlobalState) (maxLv : LevelFilter) (use_logfile : Bool)
    (env : InitEnv) : InitOut :=
  match Logger.new use_logfile env with
  | .error e => { result := .error e, state := g, effects := [] }
  | .ok (st, effs) =>
    match g.logger with
    | some _ =>
      { result := .error .setLoggerErr, state := g, effects := effs }
    | none =>
      { result := .ok (if use_logfile then some () else none),
        state := { logger := some st, maxLevel := maxLv },
        effects := effs }

def liftDrop (g : GlobalState) (o : Outcome (Logger × List Effect)) :
    Outcome (GlobalState × List Effect) :=
  match o with
  | .ok (st, effs) => .ok ({ g with logger := some st }, effs)
  | .fatal m => .fatal m

/-- Drop for LogState: if LOGGER.get() returns a registered logger, call its
flush once; otherwise do nothing. -/
def logStateDrop (g : GlobalState) (flushOk : Bool) :
    Outcome (GlobalState × List Effect) :=
  match g.logger with
  | none => .ok (g, [])
  | some st => liftDrop g (Logger.flush st flushOk)

/-- True when an init result is either a success or the already-registered
error, i.e. none of the file-related errors occurred. -/
def okOrSetLoggerErr : Except LoggerInitError (Option Unit) → Bool
  | .ok _ => true
  | .error .setLoggerErr => true
  | .error _ => false

/-! Helper lemmas. -/

theorem hasColon_replaceColons (l : List Char) :
    hasColon (replaceColons l) = false := by
  induction l with
  | nil => rfl
  | cons c cs ih =>
    unfold hasColon replaceColons at ih ⊢
    simp only [List.map_cons, List.any_cons, ih, Bool.or_false]
    by_cases h : c = ':'
    · simp [h]
    · simp [h]

theorem digitChar_ne_colon (n : Nat) : digitChar n ≠ ':' := by
  unfold digitChar
  split <;> decide

theorem replaceColons_of_no_colon (l : List Char)
    (h : hasColon l = false) : replaceColons l = l := by
  induction l with
  | nil => rfl
  | cons c cs ih =>
    unfold hasColon at h ih
    simp only [List.any_cons, Bool.or_eq_false_iff] at h
    unfold replaceColons at ih ⊢
    simp only [List.map_cons]
    have hc : c ≠ ':' := by
      intro hcc
      rw [hcc] at h
      simp at h
    rw [if_neg hc, ih h.2]

theorem hasColon_renderFilename (t : DateTime) :
    hasColon (renderFilenameChars t) = false := by
  unfold renderFilenameChars pad4 pad2 hasColon
  simp only [List.any_append, List.any_cons, List.any_nil,
    Bool.or_eq_false_iff, beq_eq_false_iff_ne, ne_eq]
  and_intros <;> first
    | exact digitChar_ne_colon _
    | decide

theorem now_filename_eq_render (t : DateTime) :
    now_filename t = renderFilenameChars t :=
  replaceColons_of_no_colon _ (hasColon_renderFilename t)

theorem digitVal_digitChar (n : Nat) (h : n < 10) :
    digitVal (digitChar n) = n := by
  interval_cases n <;> decide

theorem val4_pad (n : Nat) (h : n ≤ 9999) :
    val4 (digitChar (n / 1000 % 10)) (digitChar (n / 100 % 10))
      (digitChar (n / 10 % 10)) (digitChar (n % 10)) = n := by
  unfold val4
  rw [digitVal_digitChar _ (Nat.mod_lt _ (by decide)),
      digitVal_digitChar _ (Nat.mod_lt _ (by decide)),
      digitVal_digitChar _ (Nat.mod_lt _ (by decide)),
      digitVal_digitChar _ (Nat.mod_lt _ (by decide))]
  omega

theorem val2_pad (n : Nat) (h : n < 100) :
    val2 (digitChar (n / 10 % 10)) (digitChar (n % 10)) = n := by
  unfold val2
  rw [digitVal_digitChar _ (Nat.mod_lt _ (by decide)),
      digitVal_digitChar _ (Nat.mod_lt _ (by decide))]
  omega

theorem decode_now_filename (t : DateTime) (h : t.valid) :
    decodeFilename (now_filename t) = some t.toSecondStamp := by
  obtain ⟨hy, hmo, hd, hh, hmi, hs, hss⟩ := h
  rw [now_filename_eq_render]
  unfold renderFilenameChars pad4 pad2
  simp only [List.cons_append, List.nil_append, List.append_assoc]
  unfold decodeFilename
  simp only [Option.some.injEq]
  unfold DateTime.toSecondStamp
  rw [val4_pad _ hy, val2_pad _ (by omega), val2_pad _ (by omega),
      val2_pad _ (by omega), val2_pad _ (by omega), val2_pad _ (by omega)]

/-! Claim theorems. -/

/-- Claim C1: the claim states that the colon-to-underscore replacement
applies only to the filename profile and that the entry timestamp keeps the
form YYYY-MM-DDThh:mm:ss.ssss with colons.  In the code, now_formatted
applies the replacement to every format it renders, and now_entry goes
through now_formatted, so the entry timestamp actually rendered into log
lines has underscores in place of the colons (contradicting the crate doc,
which promises the RFC 3339 form).  This theorem evaluates the code at the
failing input 2024-03-02T15:04:05.1234 and shows no entry timestamp ever
contains a colon. -/
theorem c1_entry_timestamp_underscored :
    (now_entry ⟨2024, 3, 2, 15, 4, 5, 1234⟩).asString
        = "2024-03-02T15_04_05.1234" ∧
    (now_entry ⟨2024, 3, 2, 15, 4, 5, 1234⟩).asString
        ≠ "2024-03-02T15:04:05.1234" ∧
    (∀ t : DateTime, hasColon (now_entry t) = false) := by
  refine ⟨by decide, by decide, fun t => hasColon_replaceColons _⟩

theorem c1_entry_timestamp_underscored_witness :
    hasColon (now_entry ⟨2025, 1, 1, 0, 0, 0, 0⟩) = false :=
  c1_entry_timestamp_underscored.2.2 _

/-- Claim C3: enabled l m is true iff l is at least as severe as m (numeric
level at most the numeric threshold, the log-crate order in which Error is
smallest); enabled is a pure function of its two arguments by construction;
and a log call emits a console line iff enabled holds for the record level
(with succeeding clock and sinks). -/
theorem c3_severity_filter :
    (∀ (l : Level) (m : LevelFilter),
        enabled l m = true ↔ l.toNat ≤ m.toNat) ∧
    (∀ (st : Logger) (m : LevelFilter) (r : LogRecord) (s : String),
        emitsConsole (Logger.log st m r (.ok s) true true)
          = enabled r.level m) := by
  constructor
  · intro l m
    simp [enabled]
  · intro st m r s
    by_cases h : enabled r.level m
    · cases hst : st.logfile <;>
        simp [Logger.log, h, hst, now_formattedStr, Except.map,
          emitsConsole, isConsoleWrite]
    · simp only [Bool.not_eq_true] at h
      simp [Logger.log, h, emitsConsole]

theorem c3_severity_filter_witness :
    (enabled Level.info LevelFilter.info = true ↔
        Level.info.toNat ≤ LevelFilter.info.toNat) ∧
    emitsConsole (Logger.log ⟨none⟩ LevelFilter.info ⟨Level.info, "t", "m"⟩
        (.ok "x") true true) = enabled Level.info LevelFilter.info :=
  ⟨c3_severity_filter.1 Level.info LevelFilter.info,
   c3_severity_filter.2 ⟨none⟩ LevelFilter.info ⟨Level.info, "t", "m"⟩ "x"⟩

/-- Claim C6: when the record level does not pass the severity filter, log
is a complete no-op: the state is unchanged and the effect trace is empty
(no timestamp formatting, no console write, no lock acquisition, no file
write), whatever the clock and sink oracles would have done. -/
theorem c6_disabled_log_noop (st : Logger) (m : LevelFilter) (r : LogRecord)
    (fmtRes : Except Unit String) (stdoutOk fileOk : Bool)
    (h : enabled r.level m = false) :
    Logger.log st m r fmtRes stdoutOk fileOk = .ok (st, []) := by
  simp [Logger.log, h]

theorem c6_disabled_log_noop_witness :
    enabled Level.debug LevelFilter.info = false ∧
    Logger.log ⟨some ⟨"b", "c"⟩⟩ LevelFilter.info ⟨Level.debug, "t", "m"⟩
        (.error ()) false false = .ok (⟨some ⟨"b", "c"⟩⟩, []) :=
  ⟨by decide,
   c6_disabled_log_noop ⟨some ⟨"b", "c"⟩⟩ LevelFilter.info
     ⟨Level.debug, "t", "m"⟩ (.error ()) false false (by decide)⟩

/-- Claim C8: flush idempotence.  If one flush returns normally, a second
flush with no intervening writes returns normally whatever the write oracle
says (the buffer is empty, so nothing is left to write), and leaves the sink
state, in particular the file contents, exactly as after the first flush. -/
theorem c8_flush_idempotent (st st1 : Logger) (effs1 : List Effect)
    (ok1 ok2 : Bool) (h : Logger.flush st ok1 = .ok (st1, effs1)) :
    ∃ effs2, Logger.flush st1 ok2 = .ok (st1, effs2) := by
  cases hst : st.logfile with
  | none =>
    simp [Logger.flush, hst] at h
    obtain ⟨h1, _⟩ := h
    subst h1
    exact ⟨[.lockAcquire], by simp [Logger.flush, hst]⟩
  | some f =>
    by_cases hb : f.buffer = ""
    · simp [Logger.flush, hst, hb] at h
      obtain ⟨h1, _⟩ := h
      subst h1
      exact ⟨[.lockAcquire, .fileFlush], by simp [Logger.flush, hst, hb]⟩
    · cases ok1 with
      | false => simp [Logger.flush, hst, hb] at h
      | true =>
        simp [Logger.flush, hst, hb] at h
        obtain ⟨h1, _⟩ := h
        refine ⟨[.lockAcquire, .fileFlush], ?_⟩
        rw [← h1]
        simp [Logger.flush]

theorem c8_flush_idempotent_witness :
    ∃ effs2, Logger.flush ⟨some ⟨"", "abc"⟩⟩ false
        = .ok (⟨some ⟨"", "abc"⟩⟩, effs2) :=
  c8_flush_idempotent ⟨some ⟨"abc", ""⟩⟩ ⟨some ⟨"", "abc"⟩⟩
    [.lockAcquire, .fileFlush] true false (by decide)

/-- Claim C10: init with use_logfile false performs no filesystem or
executable-path access (its effect trace is empty), and its result is either
a success or the already-registered SetLoggerErr failure: the path,
timestamp and file-creation errors are unreachable. -/
theorem c10_init_no_logfile (g : GlobalState) (lv : LevelFilter)
    (env : InitEnv) :
    (init g lv false env).effects = [] ∧
    okOrSetLoggerErr (init g lv false env).result = true := by
  cases hg : g.logger <;>
    simp [init, Logger.new, hg, okOrSetLoggerErr]

theorem c10_init_no_logfile_witness :
    (init ⟨some ⟨none⟩, .info⟩ .debug false
        ⟨.error "io", "/x", false, false, ⟨2025, 1, 1, 0, 0, 0, 0⟩,
         .error "io"⟩).effects = [] ∧
    okOrSetLoggerErr (init ⟨some ⟨none⟩, .info⟩ .debug false
        ⟨.error "io", "/x", false, false, ⟨2025, 1, 1, 0, 0, 0, 0⟩,
         .error "io"⟩).result = true :=
  c10_init_no_logfile ⟨some ⟨none⟩, .info⟩ .debug
    ⟨.error "io", "/x", false, false, ⟨2025, 1, 1, 0, 0, 0, 0⟩, .error "io"⟩

/-- Claim C2, counterexample: with a logger already registered, a second
init(_, true) does fail with the already-registered error, but contrary to
the claim it does perform filesystem work first: Logger::new runs before the
registration check, so the effect trace contains an executable-path lookup
and a File::create (which truncates an existing file of the same name). -/
theorem c2_second_init_counterexample :
    (init ⟨some ⟨none⟩, .info⟩ .info true
        ⟨.ok (), "/app", true, true, ⟨2024, 3, 2, 15, 4, 5, 0⟩, .ok ()⟩).result
      = .error .setLoggerErr ∧
    (init ⟨some ⟨none⟩, .info⟩ .info true
        ⟨.ok (), "/app", true, true, ⟨2024, 3, 2, 15, 4, 5, 0⟩, .ok ()⟩).effects
      = [.exePathQuery, .createFile "/app/log_2024-03-02T15_04_05.txt"] := by
  constructor <;> rfl

/-- Claim C2, amended: when a logger is already registered and the fresh
Logger::new succeeds, a second init fails with the already-registered error
and leaves the global state (registered sink and severity threshold)
untouched; however the call still performs the filesystem effects of
Logger::new, so with use_logfile true a file is created (and truncated if a
file of that name, e.g. the first log file within the same second, already
exists). -/
theorem c2_second_init_rejected (g : GlobalState) (lv : LevelFilter)
    (use_logfile : Bool) (env : InitEnv) (L st : Logger)
    (effs : List Effect) (hreg : g.logger = some L)
    (hnew : Logger.new use_logfile env = .ok (st, effs)) :
    (init g lv use_logfile env).result = .error .setLoggerErr ∧
    (init g lv use_logfile env).state = g ∧
    (init g lv use_logfile env).effects = effs := by
  simp [init, hnew, hreg]

theorem c2_second_init_rejected_witness :
    (init ⟨some ⟨none⟩, .warn⟩ .debug true
        ⟨.ok (), "/opt", true, true, ⟨2025, 1, 1, 0, 0, 0, 0⟩, .ok ()⟩).result
      = .error .setLoggerErr ∧
    (init ⟨some ⟨none⟩, .warn⟩ .debug true
        ⟨.ok (), "/opt", true, true, ⟨2025, 1, 1, 0, 0, 0, 0⟩, .ok ()⟩).state
      = ⟨some ⟨none⟩, .warn⟩ ∧
    (init ⟨some ⟨none⟩, .warn⟩ .debug true
        ⟨.ok (), "/opt", true, true, ⟨2025, 1, 1, 0, 0, 0, 0⟩, .ok ()⟩).effects
      = [.exePathQuery, .createFile "/opt/log_2025-01-01T00_00_00.txt"] :=
  c2_second_init_rejected ⟨some ⟨none⟩, .warn⟩ .debug true
    ⟨.ok (), "/opt", true, true, ⟨2025, 1, 1, 0, 0, 0, 0⟩, .ok ()⟩
    ⟨none⟩ ⟨some ⟨"", ""⟩⟩
    [.exePathQuery, .createFile "/opt/log_2025-01-01T00_00_00.txt"]
    rfl rfl

/-- Claim C4: every emitted line is exactly
"[ " ++ ts ++ " " ++ target ++ " " ++ LEVEL ++ " ]: " ++ message ++ "\n",
the line is rendered once (one formatTime effect), and when a file sink is
configured the byte sequence written to the file is the very string written
to the console and is appended once to the file buffer. -/
theorem c4_line_format (st : Logger) (m : LevelFilter) (r : LogRecord)
    (ts : String) (hen : enabled r.level m = true) :
    (st.logfile = none →
      Logger.log st m r (.ok ts) true true =
        .ok (st,
          [.formatTime,
           .consoleWrite ("[ " ++ replaceColonsStr ts ++ " " ++ r.target ++
             " " ++ r.level.toUpperName ++ " ]: " ++ r.message ++ "\n"),
           .lockAcquire])) ∧
    (∀ f : FileSink, st.logfile = some f →
      Logger.log st m r (.ok ts) true true =
        .ok ({ logfile := some
                 { buffer := f.buffer ++
                     ("[ " ++ replaceColonsStr ts ++ " " ++ r.target ++
                      " " ++ r.level.toUpperName ++ " ]: " ++ r.message ++
                      "\n"),
                   contents := f.contents } },
          [.formatTime,
           .consoleWrite ("[ " ++ replaceColonsStr ts ++ " " ++ r.target ++
             " " ++ r.level.toUpperName ++ " ]: " ++ r.message ++ "\n"),
           .lockAcquire,
           .fileWrite ("[ " ++ replaceColonsStr ts ++ " " ++ r.target ++
             " " ++ r.level.toUpperName ++ " ]: " ++ r.message ++ "\n")])) := by
  constructor
  · intro h
    simp [Logger.log, hen, h, now_formattedStr, Except.map, renderLine]
  · intro f h
    simp [Logger.log, hen, h, now_formattedStr, Except.map, renderLine]

theorem c4_line_format_witness :
    Logger.log ⟨some ⟨"", ""⟩⟩ LevelFilter.info
        ⟨Level.info, "mymodule", "Logging works!"⟩
        (.ok "2024-03-02T15:04:05.1234") true true =
      .ok (⟨some ⟨"[ 2024-03-02T15_04_05.1234 mymodule INFO ]: " ++
              "Logging works!" ++ "\n", ""⟩⟩,
        [.formatTime,
         .consoleWrite ("[ 2024-03-02T15_04_05.1234 mymodule INFO ]: " ++
           "Logging works!" ++ "\n"),
         .lockAcquire,
         .fileWrite ("[ 2024-03-02T15_04_05.1234 mymodule INFO ]: " ++
           "Logging works!" ++ "\n")]) := by
  have h := (c4_line_format ⟨some ⟨"", ""⟩⟩ LevelFilter.info
    ⟨Level.info, "mymodule", "Logging works!"⟩
    "2024-03-02T15:04:05.1234" (by decide)).2 ⟨"", ""⟩ rfl
  rw [h]
  rfl

/-- Claim C5: the log file is env.exeDir ++ "/log_" ++ timestamp ++ ".txt"
where timestamp is the second-precision filename rendering; no filename
timestamp contains a colon; the rendering is the underscore-separated
template; and two initialization instants with distinct second-precision
stamps give distinct filenames. -/
theorem c5_logfile_naming :
    (∀ t : DateTime, hasColon (now_filename t) = false) ∧
    (∀ t : DateTime, now_filename t =
        pad4 t.year ++ '-' :: pad2 t.month ++ '-' :: pad2 t.day ++
          'T' :: pad2 t.hour ++ '_' :: pad2 t.minute ++
          '_' :: pad2 t.second) ∧
    (∀ (g : GlobalState) (lv : LevelFilter) (env : InitEnv),
        env.exePathRes = .ok () → env.pathIsUTF8 = true →
        env.fmtOk = true → env.createRes = .ok () →
        (init g lv true env).effects =
          [.exePathQuery,
           .createFile (env.exeDir ++ "/log_" ++
             (now_filename env.now).asString ++ ".txt")]) ∧
    (∀ t1 t2 : DateTime, t1.valid → t2.valid →
        t1.toSecondStamp ≠ t2.toSecondStamp →
        now_filename t1 ≠ now_filename t2) := by
  refine ⟨fun t => hasColon_replaceColons _,
          fun t => now_filename_eq_render t, ?_, ?_⟩
  · intro g lv env h1 h2 h3 h4
    cases hg : g.logger <;>
      simp [init, Logger.new, h1, h2, h3, h4, hg]
  · intro t1 t2 h1 h2 hne heq
    apply hne
    have hd := decode_now_filename t1 h1
    rw [heq, decode_now_filename t2 h2] at hd
    exact (Option.some.injEq _ _ ▸ hd).symm

theorem c5_logfile_naming_witness :
    hasColon (now_filename ⟨2024, 3, 2, 15, 4, 5, 0⟩) = false ∧
    (init ⟨none, .off⟩ .info true
        ⟨.ok (), "/srv", true, true, ⟨2024, 3, 2, 15, 4, 5, 0⟩, .ok ()⟩).effects
      = [.exePathQuery,
         .createFile ("/srv" ++ "/log_" ++
           (now_filename ⟨2024, 3, 2, 15, 4, 5, 0⟩).asString ++ ".txt")] ∧
    now_filename ⟨2024, 3, 2, 15, 4, 5, 0⟩ ≠
      now_filename ⟨2024, 3, 2, 15, 4, 6, 0⟩ :=
  ⟨c5_logfile_naming.1 _,
   c5_logfile_naming.2.2.1 ⟨none, .off⟩ .info
     ⟨.ok (), "/srv", true, true, ⟨2024, 3, 2, 15, 4, 5, 0⟩, .ok ()⟩
     rfl rfl rfl rfl,
   c5_logfile_naming.2.2.2 _ _ (by decide) (by decide) (by decide)⟩

/-- Claim C7: for an enabled record, a timestamp-format failure, a stdout
write failure, or a file write failure makes the log call abort fatally (the
.expect panics), and a flush with buffered bytes whose underlying write
fails aborts fatally as well: none of these executions returns normally. -/
theorem c7_runtime_failures_fatal :
    (∀ (st : Logger) (m : LevelFilter) (r : LogRecord) (sOk fOk : Bool),
        enabled r.level m = true →
        (Logger.log st m r (.error ()) sOk fOk).isFatal = true) ∧
    (∀ (st : Logger) (m : LevelFilter) (r : LogRecord) (s : String)
        (fOk : Bool), enabled r.level m = true →
        (Logger.log st m r (.ok s) false fOk).isFatal = true) ∧
    (∀ (st : Logger) (m : LevelFilter) (r : LogRecord) (s : String)
        (f : FileSink), enabled r.level m = true → st.logfile = some f →
        (Logger.log st m r (.ok s) true false).isFatal = true) ∧
    (∀ f c : String, f ≠ "" →
        (Logger.flush ⟨some ⟨f, c⟩⟩ false).isFatal = true) := by
  refine ⟨?_, ?_, ?_, ?_⟩
  · intro st m r sOk fOk h
    simp [Logger.log, h, now_formattedStr, Except.map, Outcome.isFatal]
  · intro st m r s fOk h
    simp [Logger.log, h, now_formattedStr, Except.map, Outcome.isFatal]
  · intro st m r s f h hf
    simp [Logger.log, h, hf, now_formattedStr, Except.map, Outcome.isFatal]
  · intro f c h
    simp [Logger.flush, h, Outcome.isFatal]

theorem c7_runtime_failures_fatal_witness :
    (Logger.log ⟨none⟩ .trace ⟨.info, "t", "m"⟩
        (.error ()) true true).isFatal = true ∧
    (Logger.log ⟨none⟩ .trace ⟨.info, "t", "m"⟩
        (.ok "x") false true).isFatal = true ∧
    (Logger.log ⟨some ⟨"", ""⟩⟩ .trace ⟨.info, "t", "m"⟩
        (.ok "x") true false).isFatal = true ∧
    (Logger.flush ⟨some ⟨"y", ""⟩⟩ false).isFatal = true :=
  ⟨c7_runtime_failures_fatal.1 _ _ _ _ _ (by decide),
   c7_runtime_failures_fatal.2.1 _ _ _ _ _ (by decide),
   c7_runtime_failures_fatal.2.2.1 _ _ _ _ _ (by decide) rfl,
   c7_runtime_failures_fatal.2.2.2 _ _ (by decide)⟩

/-- Claim C9: releasing the LogState guard with no registered sink is a
no-op that raises no error, and with a registered sink it is exactly one
call to the flush of that sink (so a successful release acquires the file
lock exactly once). -/
theorem c9_guard_release (g : GlobalState) (fOk : Bool) :
    (g.logger = none → logStateDrop g fOk = .ok (g, [])) ∧
    (∀ st, g.logger = some st →
        logStateDrop g fOk = liftDrop g (Logger.flush st fOk) ∧
        ∀ (g2 : GlobalState) (effs : List Effect),
          logStateDrop g fOk = .ok (g2, effs) → lockCount effs = 1) := by
  constructor
  · intro h
    simp [logStateDrop, h]
  · intro st h
    refine ⟨by simp [logStateDrop, h], ?_⟩
    intro g2 effs hdrop
    simp only [logStateDrop, h] at hdrop
    cases hst : st.logfile with
    | none =>
      simp [Logger.flush, hst, liftDrop] at hdrop
      rw [← hdrop.2]
      rfl
    | some f =>
      by_cases hb : f.buffer = ""
      · simp [Logger.flush, hst, hb, liftDrop] at hdrop
        rw [← hdrop.2]
        rfl
      · cases fOk with
        | false => simp [Logger.flush, hst, hb, liftDrop] at hdrop
        | true =>
          simp [Logger.flush, hst, hb, liftDrop] at hdrop
          rw [← hdrop.2]
          rfl

theorem c9_guard_release_witness :
    (logStateDrop ⟨none, .info⟩ true = .ok (⟨none, .info⟩, [])) ∧
    (logStateDrop ⟨some ⟨some ⟨"x", ""⟩⟩, .info⟩ true =
        liftDrop ⟨some ⟨some ⟨"x", ""⟩⟩, .info⟩
          (Logger.flush ⟨some ⟨"x", ""⟩⟩ true)) ∧
    lockCount [.lockAcquire, .fileFlush] = 1 :=
  ⟨(c9_guard_release ⟨none, .info⟩ true).1 rfl,
   ((c9_guard_release ⟨some ⟨some ⟨"x", ""⟩⟩, .info⟩ true).2
      ⟨some ⟨"x", ""⟩⟩ rfl).1,
   ((c9_guard_release ⟨some ⟨some ⟨"x", ""⟩⟩, .info⟩ true).2
      ⟨some ⟨"x", ""⟩⟩ rfl).2
     ⟨some ⟨some ⟨"", "x"⟩⟩, .info⟩ [.lockAcquire, .fileFlush] rfl⟩

end HydroloxLog
